import Mathlib

/-!
Shallow embedding of the read-through cache layer of the data-pull-tools
repository: the DataFrame/filesystem model, the `Cacher` serializer policy
(src/data_pull_tools/caching/cacher.py), the cache behaviors
(src/data_pull_tools/caching/cache_behavior.py), the `ExcelCollector`
aggregate logic (src/data_pull_tools/caching/excel_collector.py), the
directory-clearing helpers (src/data_pull_tools/file_utils.py) and the
cache-directory resolution (src/data_pull_tools/caching/resolve_strategy.py),
together with theorems settling the specification claims about them.
-/

namespace DataPullTools

/-! ## The tabular data model

A pandas DataFrame is modelled as a rectangular grid of optional cells:
`none` stands for a missing value (NA/NaN).  Column dtypes are not modelled;
`convert_dtypes` is value-preserving and therefore embeds as the identity. -/

structure DataFrame where
  ncols : Nat
  rows : List (List (Option Int))
deriving DecidableEq, Repr

/-- `pd.DataFrame()`: the explicitly empty frame returned by
`ExcelCollector._perform_collect` when nothing survives filtering. -/
def DataFrame.emptyDF : DataFrame := ⟨0, []⟩

/-- pandas `df.empty`: true when any axis has length 0. -/
def DataFrame.isEmptyFrame (df : DataFrame) : Bool :=
  df.rows.isEmpty || df.ncols == 0

/-- pandas `df.notna().any().any()`: some cell holds a non-missing value. -/
def DataFrame.notnaAnyAny (df : DataFrame) : Bool :=
  df.rows.any fun r => r.any fun cell => cell.isSome

/-- `df.convert_dtypes()` renormalizes column dtypes without changing cell
values, so on this value-level model it is the identity. -/
def DataFrame.convert_dtypes (df : DataFrame) : DataFrame := df

/-- Column `j` holds only missing values. -/
def DataFrame.colAllNA (df : DataFrame) (j : Nat) : Bool :=
  df.rows.all fun r => (r.getD j none).isNone

/-- `df.dropna(how="all", axis=1)`: drop the columns whose cells are all
missing. -/
def DataFrame.dropNAColsAll (df : DataFrame) : DataFrame :=
  let keep := (List.range df.ncols).filter fun j => !df.colAllNA j
  ⟨keep.length, df.rows.map fun r => keep.map fun j => r.getD j none⟩

/-- `df.dropna(how="all", axis=0)`: drop the rows whose cells are all
missing. -/
def DataFrame.dropNARowsAll (df : DataFrame) : DataFrame :=
  ⟨df.ncols, df.rows.filter fun r => r.any fun cell => cell.isSome⟩

/-- `excel_collector._drop_empty`:
`df.convert_dtypes().dropna(how="all", axis=1).dropna(how="all", axis=0)`. -/
def dropEmptyFrame (df : DataFrame) : DataFrame :=
  df.convert_dtypes.dropNAColsAll.dropNARowsAll

/-- `excel_collector._perform_collect._valid_frame`:
`(not df.empty) and (df.notna().any().any())`. -/
def validFrame (df : DataFrame) : Bool :=
  (!df.isEmptyFrame) && df.notnaAnyAny

/-- `pd.concat(frames, ignore_index=True)`: row-wise concatenation; columns
are aligned positionally, shorter rows padded with missing values. -/
def DataFrame.concat (dfs : List DataFrame) : DataFrame :=
  let n := dfs.foldr (fun d m => max d.ncols m) 0
  ⟨n, dfs.flatMap fun d =>
    d.rows.map fun r => (List.range n).map fun j => r.getD j none⟩

/-! ## Errors and the filesystem model

File modification times are naturals (only their order matters).  A file
entry carries its mtime, whether it is a regular file (`Path.is_file`), and
the serialized DataFrame it holds. -/

inductive Err where
  | fileNotFound (path : String)
  | permissionDenied (path : String)
  | sourceReadFailure (msg : String)
deriving DecidableEq, Repr

structure FileData where
  mtime : Nat
  isFile : Bool
  content : DataFrame
deriving DecidableEq, Repr

/-- The visible filesystem: named entries plus the current clock used to
stamp fresh writes. -/
structure FS where
  entries : List (String × FileData)
  now : Nat
deriving DecidableEq, Repr

def FS.lookup (fs : FS) (p : String) : Option FileData :=
  (fs.entries.find? fun e => e.1 == p).map Prod.snd

/-- `Path.exists()`. -/
def FS.fexists (fs : FS) (p : String) : Bool :=
  (fs.lookup p).isSome

/-- `Path.stat().st_mtime`: raises `FileNotFoundError` when the file is
absent. -/
def FS.statMtime (fs : FS) (p : String) : Except Err Nat :=
  match fs.lookup p with
  | some fd => .ok fd.mtime
  | none => .error (.fileNotFound p)

/-- Write (create or overwrite) a file, stamping it with the current clock
and advancing the clock. -/
def FS.write (fs : FS) (p : String) (df : DataFrame) : FS :=
  if fs.fexists p then
    ⟨fs.entries.map fun e =>
      if e.1 == p then (e.1, ⟨fs.now, true, df⟩) else e, fs.now + 1⟩
  else
    ⟨fs.entries ++ [(p, ⟨fs.now, true, df⟩)], fs.now + 1⟩

/-- An external agent changing a file's mtime (`touch`); creates the file
with empty content when absent. -/
def FS.touch (fs : FS) (p : String) (t : Nat) : FS :=
  if fs.fexists p then
    ⟨fs.entries.map fun e =>
      if e.1 == p then (e.1, ⟨t, e.2.isFile, e.2.content⟩) else e, fs.now⟩
  else
    ⟨fs.entries ++ [(p, ⟨t, true, DataFrame.emptyDF⟩)], fs.now⟩

/-! ## Cacher (src/data_pull_tools/caching/cacher.py)

A `Cacher` holds the ordered pre-process and post-process pipelines
(`None` is embedded as the empty list).  The format-specific
`_read_cache`/`_write_cache` are modelled as retrieving/storing the stored
DataFrame; `read_cache` applies the post-processors and `write_cache`
applies the pre-processors, exactly as the source does. -/

structure Cacher where
  preList : List (DataFrame → DataFrame)
  postList : List (DataFrame → DataFrame)

namespace Cacher

/-- `Cacher.pre_process`: fold the registered pre-processors in
registration order. -/
def pre_process (c : Cacher) (df : DataFrame) : DataFrame :=
  c.preList.foldl (fun d p => p d) df

/-- `Cacher.post_process`: fold the registered post-processors in
registration order. -/
def post_process (c : Cacher) (df : DataFrame) : DataFrame :=
  c.postList.foldl (fun d p => p d) df

/-- `Cacher.register_pre_process`: additive, order-preserving. -/
def register_pre_process (c : Cacher) (p : DataFrame → DataFrame) : Cacher :=
  { c with preList := c.preList ++ [p] }

/-- `Cacher.register_post_process`: additive, order-preserving. -/
def register_post_process (c : Cacher) (p : DataFrame → DataFrame) : Cacher :=
  { c with postList := c.postList ++ [p] }

/-- `Cacher.read_cache`: `post_process(_read_cache(cache_file))`; the
format-specific read raises when the file is absent. -/
def read_cache (c : Cacher) (fs : FS) (cacheFile : String) :
    Except Err DataFrame :=
  match fs.lookup cacheFile with
  | some fd => .ok (c.post_process fd.content)
  | none => .error (.fileNotFound cacheFile)

/-- `Cacher.write_cache`: `df = pre_process(df); _write_cache(file, df);
return df`. -/
def write_cache (c : Cacher) (fs : FS) (cacheFile : String)
    (df : DataFrame) : FS × DataFrame :=
  let df2 := c.pre_process df
  (fs.write cacheFile df2, df2)

/-- `Cacher.cache_hit`: `cache_file.exists() and
(input_file.stat().st_mtime < cache_file.stat().st_mtime)` with Python
short-circuiting: the input file is only stat-ed when the cache file
exists, and stat-ing a missing input raises. -/
def cache_hit (_c : Cacher) (fs : FS) (inputFile cacheFile : String) :
    Except Err Bool :=
  if fs.fexists cacheFile then do
    let ti ← fs.statMtime inputFile
    let tc ← fs.statMtime cacheFile
    pure (decide (ti < tc))
  else
    pure false

/-- `Cacher.cache_miss`: `not cache_hit(...)`. -/
def cache_miss (c : Cacher) (fs : FS) (inputFile cacheFile : String) :
    Except Err Bool := do
  let h ← c.cache_hit fs inputFile cacheFile
  pure (!h)

end Cacher

/-! ## Cache behaviors (src/data_pull_tools/caching/cache_behavior.py)

Uniform signature `(input_file, cache_file, cacher, reader)`.  The
zero-argument fresh-read thunk is embedded as its outcome, an
`Except Err DataFrame`; strategies that never force the thunk are exactly
the ones whose result does not depend on that argument.  Each behavior
returns the possibly-updated filesystem together with the produced frame. -/

/-- `cache_behavior._check_cache` (CHECK_CACHE): on a hit return
`cacher.post_process(cacher.read_cache(cache_file))`; on a miss read
fresh, `pre_process`, `write_cache` (whose return value is discarded),
and return `post_process` of the singly-pre-processed data. -/
def checkCacheBehavior (fs : FS) (inputFile cacheFile : String) (c : Cacher)
    (reader : Except Err DataFrame) : Except Err (FS × DataFrame) := do
  let hit ← c.cache_hit fs inputFile cacheFile
  if hit then do
    let cached ← c.read_cache fs cacheFile
    pure (fs, c.post_process cached)
  else do
    let data ← reader
    let data := c.pre_process data
    let (fs2, _) := c.write_cache fs cacheFile data
    pure (fs2, c.post_process data)

/-- `cache_behavior._fallback_to_cache` (FALLBACK_TO_CACHE): as
CHECK_CACHE, except a failing fresh read is recovered from the cache file
when it exists (even stale) and re-raised otherwise. -/
def fallbackToCacheBehavior (fs : FS) (inputFile cacheFile : String)
    (c : Cacher) (reader : Except Err DataFrame) :
    Except Err (FS × DataFrame) := do
  let hit ← c.cache_hit fs inputFile cacheFile
  if hit then do
    let cached ← c.read_cache fs cacheFile
    pure (fs, c.post_process cached)
  else
    match reader with
    | .error e =>
      if !fs.fexists cacheFile then
        .error e
      else do
        let cached ← c.read_cache fs cacheFile
        pure (fs, c.post_process cached)
    | .ok data => do
      let data := c.pre_process data
      let (fs2, _) := c.write_cache fs cacheFile data
      pure (fs2, c.post_process data)

/-- `cache_behavior._force_cache_update` (FORCE_CACHE_UPDATE). -/
def forceCacheUpdateBehavior (fs : FS) (_inputFile cacheFile : String)
    (c : Cacher) (reader : Except Err DataFrame) :
    Except Err (FS × DataFrame) := do
  let data ← reader
  let data := c.pre_process data
  let (fs2, _) := c.write_cache fs cacheFile data
  pure (fs2, c.post_process data)

/-- `cache_behavior._skip_cache` (SKIP_CACHE). -/
def skipCacheBehavior (fs : FS) (_inputFile _cacheFile : String)
    (c : Cacher) (reader : Except Err DataFrame) :
    Except Err (FS × DataFrame) := do
  let data ← reader
  let data := c.pre_process data
  pure (fs, c.post_process data)

/-- `cache_behavior._from_cache` (FROM_CACHE), embedded exactly as
written: `data = reader(); return cacher.post_process(data)` — the body
invokes the fresh-read thunk and never touches `cache_file`, despite the
docstring "Reads the cached DataFrame directly, ignoring input data". -/
def fromCacheBehavior (fs : FS) (_inputFile _cacheFile : String)
    (c : Cacher) (reader : Except Err DataFrame) :
    Except Err (FS × DataFrame) := do
  let data ← reader
  pure (fs, c.post_process data)

/-! ### Legacy behaviors (src/data_pull_tools/cached_excel_reader.py)

In the legacy module the `Cacher.read_cache`/`write_cache` methods are the
raw format reads/writes (no pre/post processing inside them); the cache
functions apply `post_process` themselves. -/

/-- Legacy `Cacher.read_cache`: the raw format-specific read, no
post-processing. -/
def legacyReadCache (fs : FS) (cacheFile : String) : Except Err DataFrame :=
  match fs.lookup cacheFile with
  | some fd => .ok fd.content
  | none => .error (.fileNotFound cacheFile)

/-- Legacy `cached_excel_reader._from_cache`:
`data = cacher.read_cache(cache_file); return cacher.post_process(data)` —
reads the cache file and ignores the input entirely. -/
def legacyFromCacheBehavior (fs : FS) (_inputFile : String)
    (_sheetName : Nat ⊕ String) (c : Cacher) (cacheFile : String) :
    Except Err DataFrame := do
  let data ← legacyReadCache fs cacheFile
  pure (c.post_process data)

/-! ## ExcelCollector (src/data_pull_tools/caching/excel_collector.py)

The collector state carries the aggregate's output path, the recorded
aggregate mtime (`_out_st_mtime`, `none` ≅ Python `None`), the output
cacher (`self._cacher`) and the glob pattern as a match predicate over
file names.  `root_dir.glob(pattern)` enumerates the filesystem entries
whose names match.  The per-file read
`reader.read_excel(entry, sheet_name, cacher, strategy)` is abstracted as
a function from the entry path to the list of produced frames (a
single-sheet read yields a one-element list, a `None` sheet selector a
list of per-sheet frames). -/

structure Collector where
  output_path : String
  out_mtime : Option Nat
  cacher : Cacher
  globMatch : String → Bool

namespace Collector

/-- `ExcelCollector._update_st_mtime` as a value: the output file's mtime
when it exists, `None` otherwise. -/
def update_st_mtime_val (col : Collector) (fs : FS) : Option Nat :=
  match fs.lookup col.output_path with
  | some fd => some fd.mtime
  | none => none

/-- `ExcelCollector.out_st_mtime`:
`self._out_st_mtime or self._update_st_mtime() or 0.0` with Python
truthiness (`None` and `0.0` are falsy). -/
def out_st_mtime (col : Collector) (fs : FS) : Nat :=
  match col.out_mtime with
  | some t => if t = 0 then (col.update_st_mtime_val fs).getD 0 else t
  | none => (col.update_st_mtime_val fs).getD 0

/-- `ExcelCollector._should_collect`: true when the output file is absent,
or some glob-matched regular file other than the output is strictly newer
than the recorded aggregate mtime. -/
def should_collect (col : Collector) (fs : FS) : Bool :=
  if !fs.fexists col.output_path then
    true
  else
    fs.entries.any fun e =>
      col.globMatch e.1 && e.2.isFile && e.1 != col.output_path &&
        decide (e.2.mtime > col.out_st_mtime fs)

/-- The entry list scanned by `_perform_collect`:
`[entry for entry in root_dir.glob(pattern) if entry.is_file() and entry != output_path]`. -/
def entryPaths (col : Collector) (fs : FS) : List String :=
  (fs.entries.filter fun e =>
    col.globMatch e.1 && e.2.isFile && e.1 != col.output_path).map Prod.fst

/-- `ExcelCollector._perform_collect`: read every matched entry (a worker
failure propagates), keep `_drop_empty` of the frames passing
`_valid_frame`, and either return `pd.DataFrame()` when none survive, or
concatenate, `convert_dtypes`, write through the output cacher (using its
returned, pre-processed frame) and record the new output mtime. -/
def perform_collect (col : Collector) (fs : FS)
    (readFile : String → Except Err (List DataFrame)) :
    Except Err (FS × Collector × DataFrame) := do
  let raw ← (col.entryPaths fs).mapM readFile
  let frames := raw.flatMap fun l => (l.filter validFrame).map dropEmptyFrame
  if frames.isEmpty then
    pure (fs, col, DataFrame.emptyDF)
  else
    let collected := (DataFrame.concat frames).convert_dtypes
    let (fs2, collected2) := col.cacher.write_cache fs col.output_path collected
    let col2 := { col with out_mtime := col.update_st_mtime_val fs2 }
    pure (fs2, col2, collected2)

/-- `ExcelCollector.collect`: run `_perform_collect` when
`_should_collect`, otherwise return `self.cacher.read_cache(output_path)`
without touching any source. -/
def collect (col : Collector) (fs : FS)
    (readFile : String → Except Err (List DataFrame)) :
    Except Err (FS × Collector × DataFrame) :=
  if col.should_collect fs then
    col.perform_collect fs readFile
  else do
    let d ← col.cacher.read_cache fs col.output_path
    pure (fs, col, d)

end Collector

/-! ## Directory clearing (src/data_pull_tools/file_utils.py)

A directory is a list of entries; `locked` marks an entry whose removal
raises `PermissionError`.  `_clear_dir` stops at the first locked entry
(the raise aborts the loop, leaving it and all later entries);
`_try_clear_dir` skips locked entries and collects them.  Both are modelled
returning the remaining directory contents alongside their outcome. -/

structure DirEntry where
  name : String
  locked : Bool
deriving DecidableEq, Repr

/-- `file_utils._clear_dir`: remove entries in order; the first locked
entry raises, leaving it and every later entry in place. -/
def clearDirLoop : List DirEntry → List DirEntry × Option Err
  | [] => ([], none)
  | e :: rest =>
    if e.locked then (e :: rest, some (.permissionDenied e.name))
    else clearDirLoop rest

/-- `file_utils._try_clear_dir`: remove what is removable, collecting the
entries that raised `PermissionError`. -/
def tryClearDirLoop : List DirEntry → List DirEntry × List String
  | [] => ([], [])
  | e :: rest =>
    let (rem, lacked) := tryClearDirLoop rest
    if e.locked then (e :: rem, e.name :: lacked) else (rem, lacked)

/-- `file_utils.clear_dir(path, must_exist, must_clear)`; a missing
directory raises `FileNotFoundError` when `must_exist` (the non-directory
`TypeError` branch is outside this directory-only model).  Returns the
resulting directory contents and either the raised error or the
`lack_permissions` list. -/
def clear_dir (dir : Option (List DirEntry)) (path : String)
    (must_exist must_clear : Bool) :
    Option (List DirEntry) × Except Err (List String) :=
  match dir with
  | none =>
    if must_exist then (none, .error (.fileNotFound path)) else (none, .ok [])
  | some entries =>
    if must_clear then
      match clearDirLoop entries with
      | (rem, some e) => (some rem, .error e)
      | (rem, none) => (some rem, .ok [])
    else
      let (rem, lacked) := tryClearDirLoop entries
      (some rem, .ok lacked)

/-- `CacheManager.clear_cache`: `clear_dir(self.cache_dir)` with the
defaults `must_exist=True, must_clear=True`. -/
def clear_cache (dir : Option (List DirEntry)) (path : String) :
    Option (List DirEntry) × Except Err (List String) :=
  clear_dir dir path true true

/-! ## Cache-directory resolution
(src/data_pull_tools/caching/resolve_strategy.py and
src/data_pull_tools/file_utils.py `hide_file`)

A directory path is its component list; the directory tree is the list of
existing directory paths.  A string hint is a single folder name (anchored
under `root_dir`); a `Path` hint is used as given. -/

abbrev DirPath := List String

def DirPath.dirName (p : DirPath) : String := (p.getLast?).getD ""

def DirPath.dirParent (p : DirPath) : DirPath := p.dropLast

/-- `Path.mkdir(parents=True, exist_ok=True)`: create the directory and
its ancestors, tolerating any that already exist. -/
def mkdirParents (tree : List DirPath) (p : DirPath) : List DirPath :=
  ((List.range p.length).map fun i => p.take (i + 1)).foldl
    (fun acc q => if acc.contains q then acc else acc ++ [q]) tree

/-- `name.startswith(".")`: the first character is a dot. -/
def startsWithDot (s : String) : Bool :=
  match s.data with
  | [] => false
  | c :: _ => c == '.'

/-- `file_utils.hide_file`, embedded exactly as written: when the name
does not start with ".", the entry is renamed to its dotted sibling, but
the function returns the ORIGINAL `path` variable (the Windows attribute
branch is outside this model). -/
def hide_file (tree : List DirPath) (p : DirPath) : List DirPath × DirPath :=
  if startsWithDot p.dirName then
    (tree, p)
  else
    let newp := p.dirParent ++ ["." ++ p.dirName]
    (tree.map fun q => if q = p then newp else q, p)

/-- The `Pathish` hint accepted by a resolve strategy: a string or a
`Path`. -/
inductive PathHint where
  | str (s : String)
  | path (p : DirPath)
deriving DecidableEq, Repr

/-- `resolve_strategy._resolve_to_root`: `cache_dir = cache_dir or
".cache"` (Python truthiness: `None` and `""` fall back, a `Path` never
does), a string is anchored under `root_dir`, the directory is created
with parents, and the result of `hide_file` is returned. -/
def resolveToRoot (tree : List DirPath) (rootDir : DirPath)
    (hint : Option PathHint) : List DirPath × DirPath :=
  let cd : PathHint :=
    match hint with
    | none => .str ".cache"
    | some (.str s) => if s = "" then .str ".cache" else .str s
    | some (.path p) => .path p
  let target : DirPath :=
    match cd with
    | .str s => rootDir ++ [s]
    | .path p => p
  let tree1 := mkdirParents tree target
  hide_file tree1 target

/-! ## Helper lemmas -/

/-- Reduce a bind on a successful `Except`. -/
theorem except_ok_bind {ε α β : Type} (a : α) (f : α → Except ε β) :
    (Except.ok a >>= f) = f a := rfl

/-- Reduce a bind on a failed `Except`. -/
theorem except_error_bind {ε α β : Type} (e : ε) (f : α → Except ε β) :
    ((Except.error e : Except ε α) >>= f) = Except.error e := rfl

/-- Looking a name up after touching a different name is unchanged. -/
theorem lookup_touch_ne (fs : FS) (p q : String) (t : Nat) (h : q ≠ p) :
    (fs.touch p t).lookup q = fs.lookup q := by
  unfold FS.touch FS.lookup
  by_cases hex : fs.fexists p = true
  · simp only [hex, if_true]
    rw [List.find?_map]
    have hpred : ((fun e : String × FileData => e.1 == q) ∘
        fun e : String × FileData =>
          if e.1 == p then (e.1, (⟨t, e.2.isFile, e.2.content⟩ : FileData))
          else e) = fun e : String × FileData => e.1 == q := by
      funext e
      by_cases hp : (e.1 == p) = true <;> simp [Function.comp, hp]
    rw [hpred]
    cases hfind : fs.entries.find? (fun e => e.1 == q) with
    | none => rfl
    | some e =>
      have he := List.find?_some hfind
      have heq : e.1 = q := by simpa using he
      have hep : e.1 ≠ p := fun hh => h (heq ▸ hh)
      simp [hep]
  · have hex2 : fs.fexists p = false := by simpa using hex
    simp only [hex2, Bool.false_eq_true, if_false]
    have hpq : (p == q) = false := by
      simp [show p ≠ q from fun hh => h hh.symm]
    simp [List.find?_append, hpq]

/-- Touching a name makes its mtime the touched value. -/
theorem statMtime_touch_self (fs : FS) (p : String) (t : Nat) :
    (fs.touch p t).statMtime p = .ok t := by
  unfold FS.touch FS.statMtime FS.lookup
  by_cases hex : fs.fexists p = true
  · simp only [hex, if_true]
    rw [List.find?_map]
    have hpred : ((fun e : String × FileData => e.1 == p) ∘
        fun e : String × FileData =>
          if e.1 == p then (e.1, (⟨t, e.2.isFile, e.2.content⟩ : FileData))
          else e) = fun e : String × FileData => e.1 == p := by
      funext e
      by_cases hp : (e.1 == p) = true <;> simp [Function.comp, hp]
    rw [hpred]
    unfold FS.fexists FS.lookup at hex
    cases hfind : fs.entries.find? (fun e => e.1 == p) with
    | none => rw [hfind] at hex; simp at hex
    | some e =>
      have he := List.find?_some hfind
      have heq : e.1 = p := by simpa using he
      simp [he, heq]
  · have hex2 : fs.fexists p = false := by simpa using hex
    simp only [hex2, Bool.false_eq_true, if_false]
    unfold FS.fexists FS.lookup at hex2
    cases hfind : fs.entries.find? (fun e => e.1 == p) with
    | some e => rw [hfind] at hex2; simp at hex2
    | none => simp [List.find?_append, hfind]

/-- A successful stat means the file exists. -/
theorem fexists_of_statMtime_ok (fs : FS) (p : String) (t : Nat)
    (h : fs.statMtime p = .ok t) : fs.fexists p = true := by
  unfold FS.statMtime at h
  unfold FS.fexists
  cases hl : fs.lookup p with
  | none => rw [hl] at h; exact absurd h (by simp)
  | some fd => simp [hl]

/-- `statMtime` after touching a different file is unchanged. -/
theorem statMtime_touch_ne (fs : FS) (p q : String) (t : Nat) (h : q ≠ p) :
    (fs.touch p t).statMtime q = fs.statMtime q := by
  unfold FS.statMtime
  rw [lookup_touch_ne fs p q t h]

/-- `fexists` after touching a different file is unchanged. -/
theorem fexists_touch_ne (fs : FS) (p q : String) (t : Nat) (h : q ≠ p) :
    (fs.touch p t).fexists q = fs.fexists q := by
  unfold FS.fexists
  rw [lookup_touch_ne fs p q t h]

/-- A touched file exists. -/
theorem fexists_touch_self (fs : FS) (p : String) (t : Nat) :
    (fs.touch p t).fexists p = true := by
  have h := statMtime_touch_self fs p t
  exact fexists_of_statMtime_ok _ p t h

/-- `cache_hit` when the cache file is present and the input can be
stat-ed: it compares the two mtimes strictly. -/
theorem cache_hit_of_lookup_some (c : Cacher) (fs : FS)
    (inputFile cacheFile : String) (ti : Nat) (fd : FileData)
    (hin : fs.statMtime inputFile = .ok ti)
    (hfd : fs.lookup cacheFile = some fd) :
    c.cache_hit fs inputFile cacheFile = .ok (decide (ti < fd.mtime)) := by
  have hex : fs.fexists cacheFile = true := by
    unfold FS.fexists
    simp [hfd]
  have hstc : fs.statMtime cacheFile = .ok fd.mtime := by
    unfold FS.statMtime
    rw [hfd]
  unfold Cacher.cache_hit
  simp only [hex, if_true]
  rw [hin, hstc]
  rfl

/-- `cache_hit` when the cache file is absent: false without stat-ing the
input. -/
theorem cache_hit_of_lookup_none (c : Cacher) (fs : FS)
    (inputFile cacheFile : String)
    (hfd : fs.lookup cacheFile = none) :
    c.cache_hit fs inputFile cacheFile = .ok false := by
  have hex : fs.fexists cacheFile = false := by
    unfold FS.fexists
    simp [hfd]
  unfold Cacher.cache_hit
  simp only [hex, Bool.false_eq_true, if_false]
  rfl

/-! ## Claim theorems -/

/-- C1 (code bug): the FROM_CACHE behavior of
src/data_pull_tools/caching/cache_behavior.py invokes the fresh-read
thunk and never reads the cache file, contradicting its own docstring
("Reads the cached DataFrame directly, ignoring input data") and the
legacy implementation in src/data_pull_tools/cached_excel_reader.py.  On
a filesystem whose cache file holds the frame `[[7]]` while the thunk
yields `[[2]]`, FROM_CACHE returns `[[2]]`; when the thunk raises it
propagates the error despite the readable cache; the legacy FROM_CACHE
returns the cached `[[7]]`. -/
theorem fromCache_invokes_reader_ignores_cache :
    fromCacheBehavior
        ⟨[("in.xlsx", ⟨5, true, ⟨1, [[some 1]]⟩⟩),
          ("in-0.parquet", ⟨9, true, ⟨1, [[some 7]]⟩⟩)], 10⟩
        "in.xlsx" "in-0.parquet" ⟨[], []⟩ (.ok ⟨1, [[some 2]]⟩) =
      .ok (⟨[("in.xlsx", ⟨5, true, ⟨1, [[some 1]]⟩⟩),
             ("in-0.parquet", ⟨9, true, ⟨1, [[some 7]]⟩⟩)], 10⟩,
           ⟨1, [[some 2]]⟩) ∧
    fromCacheBehavior
        ⟨[("in.xlsx", ⟨5, true, ⟨1, [[some 1]]⟩⟩),
          ("in-0.parquet", ⟨9, true, ⟨1, [[some 7]]⟩⟩)], 10⟩
        "in.xlsx" "in-0.parquet" ⟨[], []⟩
        (.error (.sourceReadFailure "boom")) =
      .error (.sourceReadFailure "boom") ∧
    (⟨1, [[some 2]]⟩ : DataFrame) ≠ ⟨1, [[some 7]]⟩ ∧
    legacyFromCacheBehavior
        ⟨[("in.xlsx", ⟨5, true, ⟨1, [[some 1]]⟩⟩),
          ("in-0.parquet", ⟨9, true, ⟨1, [[some 7]]⟩⟩)], 10⟩
        "in.xlsx" (Sum.inl 0) ⟨[], []⟩ "in-0.parquet" =
      .ok ⟨1, [[some 7]]⟩ :=
  ⟨rfl, rfl, by decide, rfl⟩

/-- C2: whenever the input file can be stat-ed, `Cacher.cache_hit` returns
a boolean that is true exactly when the cache file exists and the input
mtime is strictly below the cache mtime; and touching the input file to
any time at or above the cache mtime makes `cache_hit` return false. -/
theorem cache_hit_iff_strictly_newer (c : Cacher) (fs : FS)
    (inputFile cacheFile : String) (ti : Nat)
    (hin : fs.statMtime inputFile = .ok ti) :
    ((c.cache_hit fs inputFile cacheFile = .ok true) ↔
      (fs.fexists cacheFile = true ∧
        ∃ tc, fs.statMtime cacheFile = .ok tc ∧ ti < tc)) ∧
    (c.cache_hit fs inputFile cacheFile = .ok true ∨
      c.cache_hit fs inputFile cacheFile = .ok false) ∧
    (∀ t2 tc, fs.statMtime cacheFile = .ok tc → tc ≤ t2 →
      c.cache_hit (fs.touch inputFile t2) inputFile cacheFile = .ok false) := by
  refine ⟨?_, ?_, ?_⟩
  · cases hfd : fs.lookup cacheFile with
    | some fd =>
      rw [cache_hit_of_lookup_some c fs inputFile cacheFile ti fd hin hfd]
      have hex : fs.fexists cacheFile = true := by
        unfold FS.fexists
        simp [hfd]
      have hstc : fs.statMtime cacheFile = .ok fd.mtime := by
        unfold FS.statMtime
        rw [hfd]
      constructor
      · intro hh
        have hlt : ti < fd.mtime := by simpa using hh
        exact ⟨hex, fd.mtime, hstc, hlt⟩
      · rintro ⟨-, tc, htc, hlt⟩
        have heq : fd.mtime = tc := by
          rw [hstc] at htc
          simpa using htc
        simp [heq, hlt]
    | none =>
      rw [cache_hit_of_lookup_none c fs inputFile cacheFile hfd]
      have hex : fs.fexists cacheFile = false := by
        unfold FS.fexists
        simp [hfd]
      simp [hex]
  · cases hfd : fs.lookup cacheFile with
    | some fd =>
      rw [cache_hit_of_lookup_some c fs inputFile cacheFile ti fd hin hfd]
      by_cases hlt : ti < fd.mtime
      · left; simp [hlt]
      · right; simp [hlt]
    | none =>
      right
      exact cache_hit_of_lookup_none c fs inputFile cacheFile hfd
  · intro t2 tc htc hle
    by_cases hio : inputFile = cacheFile
    · subst hio
      obtain ⟨fd2, hfd2⟩ : ∃ fd2, (fs.touch inputFile t2).lookup inputFile
          = some fd2 := by
        have := fexists_touch_self fs inputFile t2
        unfold FS.fexists at this
        exact Option.isSome_iff_exists.mp this
      have hm2 : fd2.mtime = t2 := by
        have := statMtime_touch_self fs inputFile t2
        unfold FS.statMtime at this
        rw [hfd2] at this
        simpa using this
      rw [cache_hit_of_lookup_some c _ inputFile inputFile t2 fd2
        (statMtime_touch_self fs inputFile t2) hfd2]
      simp [hm2]
    · have hne : cacheFile ≠ inputFile := fun hh => hio hh.symm
      obtain ⟨fd2, hfd2⟩ : ∃ fd2, fs.lookup cacheFile = some fd2 := by
        have := fexists_of_statMtime_ok fs cacheFile tc htc
        unfold FS.fexists at this
        exact Option.isSome_iff_exists.mp this
      have hm2 : fd2.mtime = tc := by
        unfold FS.statMtime at htc
        rw [hfd2] at htc
        simpa using htc
      have hl2 : (fs.touch inputFile t2).lookup cacheFile = some fd2 := by
        rw [lookup_touch_ne fs inputFile cacheFile t2 hne, hfd2]
      rw [cache_hit_of_lookup_some c _ inputFile cacheFile t2 fd2
        (statMtime_touch_self fs inputFile t2) hl2]
      simp [hm2, Nat.not_lt.mpr hle]

/-- Witness for C2 at a concrete filesystem: input `a` (mtime 3), cache
`b` (mtime 7) is a hit, and touching `a` to time 7 flips it to a miss. -/
theorem cache_hit_iff_strictly_newer_witness :
    (Cacher.cache_hit ⟨[], []⟩
        ⟨[("a", ⟨3, true, DataFrame.emptyDF⟩),
          ("b", ⟨7, true, DataFrame.emptyDF⟩)], 9⟩ "a" "b" = .ok true) ∧
    (Cacher.cache_hit ⟨[], []⟩
        ((⟨[("a", ⟨3, true, DataFrame.emptyDF⟩),
            ("b", ⟨7, true, DataFrame.emptyDF⟩)], 9⟩ : FS).touch "a" 7)
        "a" "b" = .ok false) := by
  constructor
  · exact (cache_hit_iff_strictly_newer ⟨[], []⟩
      ⟨[("a", ⟨3, true, DataFrame.emptyDF⟩),
        ("b", ⟨7, true, DataFrame.emptyDF⟩)], 9⟩ "a" "b" 3 rfl).1.mpr
      ⟨rfl, 7, rfl, by decide⟩
  · exact (cache_hit_iff_strictly_newer ⟨[], []⟩
      ⟨[("a", ⟨3, true, DataFrame.emptyDF⟩),
        ("b", ⟨7, true, DataFrame.emptyDF⟩)], 9⟩ "a" "b" 3 rfl).2.2
      7 7 rfl (by decide)

/-- C3: under FALLBACK_TO_CACHE, on a cache miss with a failing fresh
read, a present cache file (even stale) is returned post-processed and no
error escapes, while an absent cache file re-raises the original error. -/
theorem fallback_recovers_or_propagates (fs : FS)
    (inputFile cacheFile : String) (c : Cacher) (e : Err)
    (hmiss : c.cache_hit fs inputFile cacheFile = .ok false) :
    (∀ fd, fs.lookup cacheFile = some fd →
      fallbackToCacheBehavior fs inputFile cacheFile c (.error e) =
        .ok (fs, c.post_process (c.post_process fd.content))) ∧
    (fs.lookup cacheFile = none →
      fallbackToCacheBehavior fs inputFile cacheFile c (.error e) =
        .error e) := by
  constructor
  · intro fd hfd
    have hex : fs.fexists cacheFile = true := by
      unfold FS.fexists
      simp [hfd]
    have hrc : c.read_cache fs cacheFile = .ok (c.post_process fd.content) := by
      unfold Cacher.read_cache
      rw [hfd]
    unfold fallbackToCacheBehavior
    rw [hmiss, except_ok_bind]
    simp only [Bool.false_eq_true, if_false, hex, Bool.not_true]
    rw [hrc, except_ok_bind]
    rfl
  · intro hfd
    have hex : fs.fexists cacheFile = false := by
      unfold FS.fexists
      simp [hfd]
    unfold fallbackToCacheBehavior
    rw [hmiss, except_ok_bind]
    simp only [Bool.false_eq_true, if_false, hex, Bool.not_false, if_true]

/-- Witness for C3: with a stale cache file `c.parquet` holding `[[7]]`
(input and cache mtimes equal, so a miss) and a raising thunk, the
behavior returns the cached frame; with no cache file it re-raises. -/
theorem fallback_recovers_or_propagates_witness :
    fallbackToCacheBehavior
        ⟨[("in.xlsx", ⟨7, true, DataFrame.emptyDF⟩),
          ("c.parquet", ⟨7, true, ⟨1, [[some 7]]⟩⟩)], 9⟩
        "in.xlsx" "c.parquet" ⟨[], []⟩ (.error (.sourceReadFailure "x")) =
      .ok (⟨[("in.xlsx", ⟨7, true, DataFrame.emptyDF⟩),
             ("c.parquet", ⟨7, true, ⟨1, [[some 7]]⟩⟩)], 9⟩,
           ⟨1, [[some 7]]⟩) ∧
    fallbackToCacheBehavior
        ⟨[("in.xlsx", ⟨7, true, DataFrame.emptyDF⟩)], 9⟩
        "in.xlsx" "c.parquet" ⟨[], []⟩ (.error (.sourceReadFailure "x")) =
      .error (.sourceReadFailure "x") :=
  ⟨(fallback_recovers_or_propagates
      ⟨[("in.xlsx", ⟨7, true, DataFrame.emptyDF⟩),
        ("c.parquet", ⟨7, true, ⟨1, [[some 7]]⟩⟩)], 9⟩
      "in.xlsx" "c.parquet" ⟨[], []⟩ (.sourceReadFailure "x") rfl).1
      ⟨7, true, ⟨1, [[some 7]]⟩⟩ rfl,
   (fallback_recovers_or_propagates
      ⟨[("in.xlsx", ⟨7, true, DataFrame.emptyDF⟩)], 9⟩
      "in.xlsx" "c.parquet" ⟨[], []⟩ (.sourceReadFailure "x") rfl).2 rfl⟩

/-- C4 (code bug): on a CHECK_CACHE miss the registered pre-processors
run twice, not once — `_check_cache` applies `cacher.pre_process` and
then `Cacher.write_cache` applies it again (while the frame returned to
the caller carries only one application, so the cache content and the
returned frame disagree).  With a single registered pre-processor that
appends the row `[9]` and a fresh frame `[[1]]`, the written cache file
holds `[[1],[9],[9]]` although one application yields `[[1],[9]]`. -/
theorem checkCache_double_preprocess :
    Cacher.pre_process ⟨[fun df => ⟨df.ncols, df.rows ++ [[some 9]]⟩], []⟩
        ⟨1, [[some 1]]⟩ = ⟨1, [[some 1], [some 9]]⟩ ∧
    checkCacheBehavior ⟨[("in.xlsx", ⟨5, true, DataFrame.emptyDF⟩)], 10⟩
        "in.xlsx" "out.parquet"
        ⟨[fun df => ⟨df.ncols, df.rows ++ [[some 9]]⟩], []⟩
        (.ok ⟨1, [[some 1]]⟩) =
      .ok (⟨[("in.xlsx", ⟨5, true, DataFrame.emptyDF⟩),
             ("out.parquet",
              ⟨10, true, ⟨1, [[some 1], [some 9], [some 9]]⟩⟩)], 11⟩,
           ⟨1, [[some 1], [some 9]]⟩) ∧
    (⟨1, [[some 1], [some 9], [some 9]]⟩ : DataFrame) ≠
      ⟨1, [[some 1], [some 9]]⟩ :=
  ⟨rfl, rfl, by decide⟩

/-- C9: when the cache file exists but the input file does not,
`Cacher.cache_hit` raises the input's file-not-found error instead of
returning a boolean, and both CHECK_CACHE and FALLBACK_TO_CACHE propagate
that error for every fresh-read thunk, even though a cached frame is
available. -/
theorem cache_hit_raises_on_missing_input (c : Cacher) (fs : FS)
    (inputFile cacheFile : String) (fd : FileData)
    (hcache : fs.lookup cacheFile = some fd)
    (hinput : fs.lookup inputFile = none) :
    c.cache_hit fs inputFile cacheFile = .error (.fileNotFound inputFile) ∧
    (∀ reader, checkCacheBehavior fs inputFile cacheFile c reader =
      .error (.fileNotFound inputFile)) ∧
    (∀ reader, fallbackToCacheBehavior fs inputFile cacheFile c reader =
      .error (.fileNotFound inputFile)) := by
  have hex : fs.fexists cacheFile = true := by
    unfold FS.fexists
    simp [hcache]
  have hsi : fs.statMtime inputFile = .error (.fileNotFound inputFile) := by
    unfold FS.statMtime
    rw [hinput]
  have hch : c.cache_hit fs inputFile cacheFile =
      .error (.fileNotFound inputFile) := by
    unfold Cacher.cache_hit
    simp only [hex, if_true]
    rw [hsi]
    rfl
  refine ⟨hch, fun reader => ?_, fun reader => ?_⟩
  · unfold checkCacheBehavior
    rw [hch]
    rfl
  · unfold fallbackToCacheBehavior
    rw [hch]
    rfl

/-- Witness for C9: cache file `c.parquet` present, input `gone.xlsx`
absent: `cache_hit` and CHECK_CACHE both raise file-not-found. -/
theorem cache_hit_raises_on_missing_input_witness :
    Cacher.cache_hit ⟨[], []⟩
        ⟨[("c.parquet", ⟨7, true, DataFrame.emptyDF⟩)], 9⟩
        "gone.xlsx" "c.parquet" = .error (.fileNotFound "gone.xlsx") ∧
    checkCacheBehavior ⟨[("c.parquet", ⟨7, true, DataFrame.emptyDF⟩)], 9⟩
        "gone.xlsx" "c.parquet" ⟨[], []⟩ (.ok DataFrame.emptyDF) =
      .error (.fileNotFound "gone.xlsx") :=
  ⟨(cache_hit_raises_on_missing_input ⟨[], []⟩
      ⟨[("c.parquet", ⟨7, true, DataFrame.emptyDF⟩)], 9⟩
      "gone.xlsx" "c.parquet" ⟨7, true, DataFrame.emptyDF⟩ rfl rfl).1,
   (cache_hit_raises_on_missing_input ⟨[], []⟩
      ⟨[("c.parquet", ⟨7, true, DataFrame.emptyDF⟩)], 9⟩
      "gone.xlsx" "c.parquet" ⟨7, true, DataFrame.emptyDF⟩ rfl rfl).2.1
      (.ok DataFrame.emptyDF)⟩

/-- A `mapM` over `Except` whose function succeeds with property `P` on
every element succeeds with a list of `P`-elements. -/
theorem mapM_except_ok {α β ε : Type} (f : α → Except ε β) (P : β → Prop) :
    ∀ l : List α, (∀ a ∈ l, ∃ b, f a = .ok b ∧ P b) →
      ∃ bs, l.mapM f = .ok bs ∧ ∀ b ∈ bs, P b := by
  intro l
  induction l with
  | nil => exact fun _ => ⟨[], rfl, by simp⟩
  | cons a as ih =>
    intro h
    obtain ⟨b, hfb, hPb⟩ := h a (by simp)
    obtain ⟨bs, hmap, hPbs⟩ := ih fun x hx => h x (by simp [hx])
    refine ⟨b :: bs, ?_, ?_⟩
    · rw [List.mapM_cons, hfb, except_ok_bind, hmap, except_ok_bind]
      rfl
    · intro x hx
      rcases List.mem_cons.mp hx with hx1 | hx2
      · exact hx1 ▸ hPb
      · exact hPbs x hx2

/-- When every per-file read succeeds but yields only invalid frames,
`_perform_collect` takes the zero-survivor branch: it returns
`pd.DataFrame()` and leaves both the filesystem and the collector state
(including the recorded aggregate mtime) untouched. -/
theorem perform_collect_all_invalid (col : Collector) (fs : FS)
    (readFile : String → Except Err (List DataFrame))
    (h : ∀ p ∈ col.entryPaths fs, ∃ l, readFile p = .ok l ∧
      ∀ df ∈ l, validFrame df = false) :
    col.perform_collect fs readFile = .ok (fs, col, DataFrame.emptyDF) := by
  obtain ⟨ls, hmap, hinv⟩ :=
    mapM_except_ok readFile (fun l => ∀ df ∈ l, validFrame df = false)
      (col.entryPaths fs) h
  unfold Collector.perform_collect
  rw [hmap, except_ok_bind]
  have hframes :
      (ls.flatMap fun l => (l.filter validFrame).map dropEmptyFrame) = [] := by
    rw [List.flatMap_eq_nil_iff]
    intro l hl
    have : l.filter validFrame = [] := by
      rw [List.filter_eq_nil_iff]
      intro df hdf
      simp [hinv l hl df hdf]
    simp [this]
  simp only [hframes, List.isEmpty_nil, if_true]
  rfl

/-- C5: `_should_collect` is true exactly when the aggregate cache file is
absent or some glob-matched regular file other than the output is
strictly newer than the recorded aggregate mtime; when it is false,
`collect` returns the post-processed aggregate read from its cache file,
for every per-file reader (so no source file is consulted); when it is
true, `collect` runs `_perform_collect`. -/
theorem collector_staleness (col : Collector) (fs : FS) :
    (col.should_collect fs = true ↔
      fs.lookup col.output_path = none ∨
      ∃ pr ∈ fs.entries, col.globMatch pr.1 = true ∧ pr.2.isFile = true ∧
        pr.1 ≠ col.output_path ∧ col.out_st_mtime fs < pr.2.mtime) ∧
    (col.should_collect fs = false → ∀ fd,
      fs.lookup col.output_path = some fd →
      ∀ readFile, col.collect fs readFile =
        .ok (fs, col, col.cacher.post_process fd.content)) ∧
    (col.should_collect fs = true → ∀ readFile,
      col.collect fs readFile = col.perform_collect fs readFile) := by
  refine ⟨?_, ?_, ?_⟩
  · unfold Collector.should_collect
    cases hl : fs.lookup col.output_path with
    | none =>
      have hex : fs.fexists col.output_path = false := by
        unfold FS.fexists
        simp [hl]
      simp [hex]
    | some fd =>
      have hex : fs.fexists col.output_path = true := by
        unfold FS.fexists
        simp [hl]
      simp only [hex, Bool.not_true, Bool.false_eq_true, if_false,
        List.any_eq_true, Bool.and_eq_true, bne_iff_ne, decide_eq_true_eq,
        gt_iff_lt, reduceCtorEq, false_or]
      constructor
      · rintro ⟨pr, hmem, ⟨⟨hg, hf⟩, hne⟩, hmt⟩
        exact ⟨pr, hmem, hg, hf, hne, hmt⟩
      · rintro ⟨pr, hmem, hg, hf, hne, hmt⟩
        exact ⟨pr, hmem, ⟨⟨hg, hf⟩, hne⟩, hmt⟩
  · intro hsc fd hfd readFile
    unfold Collector.collect
    rw [hsc]
    simp only [Bool.false_eq_true, if_false]
    have hrc : col.cacher.read_cache fs col.output_path =
        .ok (col.cacher.post_process fd.content) := by
      unfold Cacher.read_cache
      rw [hfd]
    rw [hrc, except_ok_bind]
    rfl
  · intro hsc readFile
    unfold Collector.collect
    rw [hsc]
    simp

/-- Witness for C5: with aggregate `agg.parquet` recorded at mtime 9 and
the only source `a.xlsx` at mtime 5, `_should_collect` is false and
`collect` returns the cached aggregate even when every source read would
fail. -/
theorem collector_staleness_witness :
    Collector.should_collect
        ⟨"agg.parquet", some 9, ⟨[], []⟩, fun _ => true⟩
        ⟨[("a.xlsx", ⟨5, true, ⟨1, [[some 4]]⟩⟩),
          ("agg.parquet", ⟨9, true, ⟨1, [[some 8]]⟩⟩)], 20⟩ = false ∧
    Collector.collect ⟨"agg.parquet", some 9, ⟨[], []⟩, fun _ => true⟩
        ⟨[("a.xlsx", ⟨5, true, ⟨1, [[some 4]]⟩⟩),
          ("agg.parquet", ⟨9, true, ⟨1, [[some 8]]⟩⟩)], 20⟩
        (fun _ => .error (.sourceReadFailure "never")) =
      .ok (⟨[("a.xlsx", ⟨5, true, ⟨1, [[some 4]]⟩⟩),
             ("agg.parquet", ⟨9, true, ⟨1, [[some 8]]⟩⟩)], 20⟩,
           ⟨"agg.parquet", some 9, ⟨[], []⟩, fun _ => true⟩,
           ⟨1, [[some 8]]⟩) :=
  ⟨rfl,
   (collector_staleness ⟨"agg.parquet", some 9, ⟨[], []⟩, fun _ => true⟩
      ⟨[("a.xlsx", ⟨5, true, ⟨1, [[some 4]]⟩⟩),
        ("agg.parquet", ⟨9, true, ⟨1, [[some 8]]⟩⟩)], 20⟩).2.1
      rfl ⟨9, true, ⟨1, [[some 8]]⟩⟩ rfl
      (fun _ => .error (.sourceReadFailure "never"))⟩

/-- C6: when every matched source yields only frames that are empty or
all-missing (so zero candidates survive filtering), the collector
returns the explicitly empty frame `pd.DataFrame()` and raises no
error. -/
theorem collector_empty_aggregate (col : Collector) (fs : FS)
    (readFile : String → Except Err (List DataFrame))
    (h : ∀ p ∈ col.entryPaths fs, ∃ l, readFile p = .ok l ∧
      ∀ df ∈ l, validFrame df = false) :
    ∃ fs2 col2, col.perform_collect fs readFile =
      .ok (fs2, col2, DataFrame.emptyDF) :=
  ⟨fs, col, perform_collect_all_invalid col fs readFile h⟩

/-- Witness for C6: one source whose only frame is a single missing cell;
the collector yields the empty frame. -/
theorem collector_empty_aggregate_witness :
    ∃ fs2 col2,
      Collector.perform_collect ⟨"agg.parquet", none, ⟨[], []⟩, fun _ => true⟩
        ⟨[("a.xlsx", ⟨5, true, ⟨1, [[none]]⟩⟩)], 9⟩
        (fun _ => .ok [⟨1, [[none]]⟩]) = .ok (fs2, col2, DataFrame.emptyDF) :=
  collector_empty_aggregate ⟨"agg.parquet", none, ⟨[], []⟩, fun _ => true⟩
    ⟨[("a.xlsx", ⟨5, true, ⟨1, [[none]]⟩⟩)], 9⟩
    (fun _ => .ok [⟨1, [[none]]⟩])
    (by
      intro p hp
      refine ⟨[⟨1, [[none]]⟩], rfl, ?_⟩
      intro df hdf
      have : df = ⟨1, [[none]]⟩ := by simpa using hdf
      subst this
      decide)

/-- C10: in the zero-survivor case `_perform_collect` returns the empty
frame while writing nothing and leaving the recorded aggregate mtime
untouched (the filesystem and collector come back unchanged), and since
the state is unchanged, a subsequent `collect` on it scans and reads the
sources again whenever the current one did. -/
theorem collector_empty_no_write (col : Collector) (fs : FS)
    (readFile : String → Except Err (List DataFrame))
    (h : ∀ p ∈ col.entryPaths fs, ∃ l, readFile p = .ok l ∧
      ∀ df ∈ l, validFrame df = false) :
    col.perform_collect fs readFile = .ok (fs, col, DataFrame.emptyDF) ∧
    (col.should_collect fs = true →
      ∀ readFile2, col.collect fs readFile2 =
        col.perform_collect fs readFile2) := by
  refine ⟨perform_collect_all_invalid col fs readFile h, ?_⟩
  intro hsc readFile2
  unfold Collector.collect
  rw [hsc]
  simp

/-- Witness for C10: source `b.xlsx`, aggregate absent (so a collect is
due); the zero-survivor run leaves filesystem and collector unchanged and
the next `collect` dispatches to `_perform_collect` again. -/
theorem collector_empty_no_write_witness :
    Collector.perform_collect ⟨"total.parquet", none, ⟨[], []⟩, fun _ => true⟩
        ⟨[("b.xlsx", ⟨6, true, ⟨2, [[none, none]]⟩⟩)], 12⟩
        (fun _ => .ok [⟨2, [[none, none]]⟩]) =
      .ok (⟨[("b.xlsx", ⟨6, true, ⟨2, [[none, none]]⟩⟩)], 12⟩,
           ⟨"total.parquet", none, ⟨[], []⟩, fun _ => true⟩,
           DataFrame.emptyDF) ∧
    (Collector.should_collect ⟨"total.parquet", none, ⟨[], []⟩, fun _ => true⟩
        ⟨[("b.xlsx", ⟨6, true, ⟨2, [[none, none]]⟩⟩)], 12⟩ = true →
      ∀ readFile2,
        Collector.collect ⟨"total.parquet", none, ⟨[], []⟩, fun _ => true⟩
          ⟨[("b.xlsx", ⟨6, true, ⟨2, [[none, none]]⟩⟩)], 12⟩ readFile2 =
        Collector.perform_collect
          ⟨"total.parquet", none, ⟨[], []⟩, fun _ => true⟩
          ⟨[("b.xlsx", ⟨6, true, ⟨2, [[none, none]]⟩⟩)], 12⟩ readFile2) :=
  collector_empty_no_write ⟨"total.parquet", none, ⟨[], []⟩, fun _ => true⟩
    ⟨[("b.xlsx", ⟨6, true, ⟨2, [[none, none]]⟩⟩)], 12⟩
    (fun _ => .ok [⟨2, [[none, none]]⟩])
    (by
      intro p hp
      refine ⟨[⟨2, [[none, none]]⟩], rfl, ?_⟩
      intro df hdf
      have : df = ⟨2, [[none, none]]⟩ := by simpa using hdf
      subst this
      decide)

/-- `_clear_dir` on an all-unlocked directory removes everything and
raises nothing. -/
theorem clearDirLoop_all_unlocked (entries : List DirEntry)
    (h : ∀ e ∈ entries, e.locked = false) :
    clearDirLoop entries = ([], none) := by
  induction entries with
  | nil => rfl
  | cons e es ih =>
    unfold clearDirLoop
    rw [h e (by simp)]
    simp only [Bool.false_eq_true, if_false]
    exact ih fun x hx => h x (by simp [hx])

/-- `_clear_dir` stops at the first locked entry, leaving it and all
later entries. -/
theorem clearDirLoop_first_locked (pre : List DirEntry) (e : DirEntry)
    (post : List DirEntry) (hpre : ∀ x ∈ pre, x.locked = false)
    (he : e.locked = true) :
    clearDirLoop (pre ++ e :: post) =
      (e :: post, some (.permissionDenied e.name)) := by
  induction pre with
  | nil =>
    simp only [List.nil_append]
    unfold clearDirLoop
    simp [he]
  | cons x xs ih =>
    have hx := hpre x (by simp)
    simp only [List.cons_append]
    unfold clearDirLoop
    simp only [hx, Bool.false_eq_true, if_false]
    exact ih fun y hy => hpre y (by simp [hy])

/-- `_try_clear_dir` removes the unlocked entries and collects the locked
ones in order. -/
theorem tryClearDirLoop_eq (entries : List DirEntry) :
    tryClearDirLoop entries =
      (entries.filter (fun e => e.locked),
       (entries.filter (fun e => e.locked)).map (fun e => e.name)) := by
  induction entries with
  | nil => rfl
  | cons e es ih =>
    unfold tryClearDirLoop
    rw [ih]
    by_cases he : e.locked = true
    · simp [he, List.filter_cons]
    · have he2 : e.locked = false := by simpa using he
      simp [he2, List.filter_cons]

/-- C7 counterexample: on a cache directory whose first entry `a` cannot
be removed (permission) and whose second entry `b` can,
`CacheManager.clear_cache` raises the permission error and removes
nothing — it does not continue to `b` and does not report a collected
list, contradicting the claim (whose predicted outcome would be the
tolerant `(remaining [a], ok ["a"])`). -/
theorem clear_cache_aborts_counterexample :
    clear_cache (some [⟨"a", true⟩, ⟨"b", false⟩]) ".cache" =
      (some [⟨"a", true⟩, ⟨"b", false⟩], .error (.permissionDenied "a")) ∧
    clear_cache (some [⟨"a", true⟩, ⟨"b", false⟩]) ".cache" ≠
      (some [⟨"a", true⟩], .ok ["a"]) := by
  refine ⟨rfl, ?_⟩
  intro h
  rw [show clear_cache (some [⟨"a", true⟩, ⟨"b", false⟩]) ".cache" =
    (some [⟨"a", true⟩, ⟨"b", false⟩], .error (.permissionDenied "a"))
    from rfl] at h
  simp at h

/-- C7 amended: `clear_cache` (which calls `clear_dir` with its defaults
`must_exist=True, must_clear=True`) clears everything only when no entry
removal hits a permission error; at the first locked entry it propagates
the `PermissionError` and aborts, leaving that entry and all later ones.
The tolerant collect-and-report behavior exists only in `clear_dir` when
called with `must_clear=False` (via `_try_clear_dir`), a path
`clear_cache` never takes. -/
theorem clear_cache_amended (entries : List DirEntry) (path : String) :
    ((∀ e ∈ entries, e.locked = false) →
      clear_cache (some entries) path = (some [], .ok [])) ∧
    (∀ pre e post, entries = pre ++ e :: post →
      (∀ x ∈ pre, x.locked = false) → e.locked = true →
      clear_cache (some entries) path =
        (some (e :: post), .error (.permissionDenied e.name))) ∧
    (clear_dir (some entries) path true false =
      (some (entries.filter (fun e => e.locked)),
       .ok ((entries.filter (fun e => e.locked)).map (fun e => e.name)))) := by
  refine ⟨?_, ?_, ?_⟩
  · intro h
    unfold clear_cache clear_dir
    simp [clearDirLoop_all_unlocked entries h]
  · intro pre e post hsplit hpre he
    unfold clear_cache clear_dir
    rw [hsplit]
    simp [clearDirLoop_first_locked pre e post hpre he]
  · unfold clear_dir
    simp [tryClearDirLoop_eq entries]

/-- Witness for C7's amended claim: an all-unlocked directory clears
fully; a directory `[p, q(locked), r]` aborts at `q` leaving `q, r`; the
`must_clear=False` path on the same directory removes `p, r` and reports
`["q"]`. -/
theorem clear_cache_amended_witness :
    clear_cache (some [⟨"x", false⟩]) ".cache" = (some [], .ok []) ∧
    clear_cache (some [⟨"p", false⟩, ⟨"q", true⟩, ⟨"r", false⟩]) ".cache" =
      (some [⟨"q", true⟩, ⟨"r", false⟩], .error (.permissionDenied "q")) ∧
    clear_dir (some [⟨"p", false⟩, ⟨"q", true⟩, ⟨"r", false⟩]) ".cache"
        true false = (some [⟨"q", true⟩], .ok ["q"]) :=
  ⟨(clear_cache_amended [⟨"x", false⟩] ".cache").1 (by decide),
   (clear_cache_amended [⟨"p", false⟩, ⟨"q", true⟩, ⟨"r", false⟩]
      ".cache").2.1 [⟨"p", false⟩] ⟨"q", true⟩ [⟨"r", false⟩] rfl
      (by decide) rfl,
   (clear_cache_amended [⟨"p", false⟩, ⟨"q", true⟩, ⟨"r", false⟩]
      ".cache").2.2⟩

/-- C8 (code bug): `_resolve_to_root` with the string hint `mycache`
under root `r` creates `r/mycache`, and `hide_file` renames it to
`r/.mycache` but returns the pre-rename path (contradicting its own
docstring, "Returns ... The final name of the hidden file/folder"), so
the returned directory `r/mycache` does not exist afterwards and its name
is not hidden; with the default absent hint the fixed name `.cache`
already starts with a dot, so no rename happens and the returned
directory exists. -/
theorem resolve_to_root_returns_renamed_away_path :
    (resolveToRoot [["r"]] ["r"] (some (.str "mycache"))).2 =
      ["r", "mycache"] ∧
    ((resolveToRoot [["r"]] ["r"] (some (.str "mycache"))).1.contains
      ["r", "mycache"]) = false ∧
    ((resolveToRoot [["r"]] ["r"] (some (.str "mycache"))).1.contains
      ["r", ".mycache"]) = true ∧
    startsWithDot "mycache" = false ∧
    (resolveToRoot [["r"]] ["r"] none).2 = ["r", ".cache"] ∧
    ((resolveToRoot [["r"]] ["r"] none).1.contains ["r", ".cache"]) = true :=
  ⟨by decide, by decide, by decide, by decide, by decide, by decide⟩

end DataPullTools
